import Mathlib

/-!
Shallow embedding of the Agri-Bot streaming chat frontend.

Embedded source files:
* `src/agri-frontend/hooks/useStreamingChat.ts` — the view-model fold
  (`startStreaming`'s `onmessage` handler, a `switch` on `data.type`),
  `stopStreaming`, and the state reset performed on entry to
  `startStreaming`.
* `src/frontend/src/hooks` variant (the file shipped alongside
  `StreamingText.tsx`) — the fallback (non-push) transport that replays a
  synchronous API answer word by word.
* the chat interface (`sendMessage`) — optimistic user-message rollback in
  the failure path.

JavaScript conventions modelled explicitly:
* `x || d` on numbers/strings treats `0` and `""` as falsy (`jsOrInt`,
  `jsOrStr`, `jsOrRat`); on arrays even `[]` is truthy, so
  `data.sources || []` is `Option.getD`.
* a sparse-array element assignment `a[i] = v` past the end extends the
  array with holes; holes and `undefined` elements are both modelled as
  `none` in a `List (Option _)`.
* wall-clock reads (`new Date()`, `Date.now()`) are threaded as explicit
  integer (epoch-milliseconds) parameters.
-/

namespace AgriBot

/-- JS `o || d` for an optional number: `0`, like `undefined`, is falsy. -/
def jsOrInt (o : Option Int) (d : Int) : Int :=
  match o with
  | some v => if v = 0 then d else v
  | none => d

/-- JS `o || d` for an optional string: `""`, like `undefined`, is falsy. -/
def jsOrStr (o : Option String) (d : String) : String :=
  match o with
  | some v => if v = "" then d else v
  | none => d

/-- JS `o || d` for an optional rational number (used for float-valued
fields that are only ever copied, never computed with). -/
def jsOrRat (o : Option Rat) (d : Rat) : Rat :=
  match o with
  | some v => if v = 0 then d else v
  | none => d

/-- `Source` from `useStreamingChat.ts`. `confidence` is a JS float in
`[0,1]`; the fold only copies it, so it is modelled as a rational. -/
structure Source where
  id : Int
  title : String
  type : String
  confidence : Rat
  url : String
  deriving DecidableEq, Repr

/-- `ReasoningStep` from `useStreamingChat.ts`. Entries created by the fold
always carry an explicit `completed` flag. -/
structure ReasoningStep where
  step : String
  index : Nat
  completed : Bool
  deriving DecidableEq, Repr

/-- `WebSearchQuery` from `useStreamingChat.ts`; `timestamp` is the
epoch-milliseconds value of the `new Date()` taken when the event folds. -/
structure WebSearchQuery where
  query : String
  timestamp : Int
  results : Option Int := none
  deriving DecidableEq, Repr

/-- `StreamingState` from `useStreamingChat.ts`: the view model of one
streaming chat turn. `reasoningSteps` is a JS array that the fold writes
sparsely, hence `List (Option ReasoningStep)` with `none` for holes. -/
structure StreamingState where
  isStreaming : Bool
  progress : Int
  currentPhase : String
  phaseTitle : String
  sources : List Source
  reasoningSteps : List (Option ReasoningStep)
  webSearchQueries : List WebSearchQuery
  streamingText : String
  factCheckStatus : String
  error : Option String
  deriving DecidableEq, Repr

/-- The initial view model passed to `useState` in `useStreamingChat`. -/
def initialState : StreamingState :=
  { isStreaming := false
    progress := 0
    currentPhase := ""
    phaseTitle := ""
    sources := []
    reasoningSteps := []
    webSearchQueries := []
    streamingText := ""
    factCheckStatus := ""
    error := none }

/-- `StreamingMessage` from `useStreamingChat.ts`: one parsed server-sent
event; every payload field is optional. `index` is used only as an array
position, hence `Option Nat`. -/
structure StreamingMessage where
  type : String
  message : Option String := none
  progress : Option Int := none
  phase : Option String := none
  title : Option String := none
  status : Option String := none
  result : Option String := none
  sources : Option (List Source) := none
  step : Option String := none
  index : Option Nat := none
  chunk : Option String := none
  query : Option String := none
  response_id : Option String := none
  deriving DecidableEq, Repr

/-- JS `newSteps[i] = some v` on a copy of `l`: within bounds it overwrites
position `i`; past the end the array is extended (holes up to `i`, modelled
as `none`) and position `i` receives the value. Rendered uniformly as
pad-then-set, which agrees with the JS assignment in both cases. -/
def upsertAt (l : List (Option ReasoningStep)) (i : Nat) (v : ReasoningStep) :
    List (Option ReasoningStep) :=
  (l ++ List.replicate (i + 1 - l.length) none).set i (some v)

/-- One step of the `onmessage` fold in `startStreaming`
(`useStreamingChat.ts`): `setStreamingState(prev => ...)` with a `switch`
on `data.type`. `now` is the wall clock at fold time (only
`web_search_query` reads it, for its `new Date()`). Unrecognized types fall
through the `switch` and return the previous state unchanged. -/
def foldEvent (prev : StreamingState) (data : StreamingMessage) (now : Int) :
    StreamingState :=
  if data.type = "status" then
    { prev with progress := jsOrInt data.progress 0 }
  else if data.type = "phase" then
    { prev with currentPhase := jsOrStr data.phase ""
                phaseTitle := jsOrStr data.title "" }
  else if data.type = "phase_complete" then
    { prev with progress := jsOrInt data.progress prev.progress }
  else if data.type = "sources_found" then
    { prev with sources := data.sources.getD []
                progress := jsOrInt data.progress prev.progress }
  else if data.type = "reasoning_step" then
    match data.step, data.index with
    | some st, some i =>
      if st = "" then prev
      else
        { prev with reasoningSteps :=
            upsertAt prev.reasoningSteps i ⟨st, i, false⟩ }
    | _, _ => prev
  else if data.type = "web_search_query" then
    match data.query with
    | some q =>
      if q = "" then prev
      else
        { prev with webSearchQueries :=
            prev.webSearchQueries ++ [{ query := q, timestamp := now }] }
    | none => prev
  else if data.type = "response_start" then
    { prev with streamingText := "" }
  else if data.type = "response_chunk" then
    { prev with streamingText := jsOrStr data.chunk ""
                progress := jsOrInt data.progress prev.progress }
  else if data.type = "fact_check_result" then
    { prev with factCheckStatus := jsOrStr data.status "" }
  else if data.type = "completion" then
    { prev with isStreaming := false
                progress := 100
                reasoningSteps :=
                  prev.reasoningSteps.map
                    (Option.map fun s => { s with completed := true }) }
  else if data.type = "error" then
    { prev with error := some (jsOrStr data.message "An error occurred")
                isStreaming := false }
  else
    prev

/-- Fold a whole sequence of timed events, left to right. -/
def foldEvents (s : StreamingState) : List (StreamingMessage × Int) → StreamingState
  | [] => s
  | e :: es => foldEvents (foldEvent s e.1 e.2) es

/-- A streaming surface: the React state plus whether `eventSourceRef`
currently holds an open `EventSource`. -/
structure StreamingSession where
  streamingState : StreamingState
  transportOpen : Bool
  deriving DecidableEq, Repr

/-- Entry of `startStreaming` (`useStreamingChat.ts`): it unconditionally
resets the view model to the live initial state and stores a freshly opened
`EventSource` in `eventSourceRef`, overwriting whatever was there (the
previous transport, if any, is not closed). There is no guard on
`isStreaming`. -/
def startStreamingEntry (_sess : StreamingSession) : StreamingSession :=
  { streamingState := { initialState with isStreaming := true }
    transportOpen := true }

/-- `stopStreaming` (`useStreamingChat.ts`): if `eventSourceRef.current` is
set, close it and null the ref; then
`setStreamingState(prev => ({ ...prev, isStreaming: false }))`. -/
def stopStreaming (sess : StreamingSession) : StreamingSession :=
  let closed :=
    if sess.transportOpen then { sess with transportOpen := false } else sess
  { closed with streamingState :=
      { closed.streamingState with isStreaming := false } }

/-! ### Fallback (non-push) transport

The `src/frontend/src` hook variant has no live `EventSource`: it calls the
synchronous API and then replays the returned assistant text word by word
(`fullText.split(' ')`, then `currentText += (i > 0 ? ' ' : '') + words[i]`
per iteration), ending with a completion update and `isStreaming = false`. -/

/-- JS `s.split(' ')` on the character list of `s`: split at every single
space, keeping empty fragments; `"".split(' ')` is `[""]`. -/
def jsSplitSpace : List Char → List (List Char)
  | [] => [[]]
  | c :: cs =>
    if c = ' ' then [] :: jsSplitSpace cs
    else
      match jsSplitSpace cs with
      | [] => [[c]]
      | w :: ws => (c :: w) :: ws

/-- Concatenate words, each preceded by one space. -/
def sepJoin : List (List Char) → List Char
  | [] => []
  | w :: ws => ' ' :: (w ++ sepJoin ws)

/-- `words.join(' ')`: words separated by single spaces. -/
def joinSpace : List (List Char) → List Char
  | [] => []
  | w :: ws => w ++ sepJoin ws

/-- The `currentText` accumulator of the replay loop, started at word `i`:
each iteration appends `(i > 0 ? ' ' : '') + words[i]`. -/
def replayAcc (cur : List Char) (i : Nat) : List (List Char) → List Char
  | [] => cur
  | w :: ws => replayAcc (cur ++ (if 0 < i then [' '] else []) ++ w) (i + 1) ws

/-- A source entry of the fallback hook's `StreamingState`. -/
structure FallbackSource where
  title : String
  url : String
  snippet : String
  confidence : Rat
  deriving DecidableEq, Repr

/-- A reasoning step of the fallback hook's `StreamingState`
(`status` is `'processing'` or `'complete'`). -/
structure FallbackReasoningStep where
  step : String
  detail : String
  status : String
  deriving DecidableEq, Repr

/-- `StreamingState` of the fallback hook (`src/frontend/src` variant). -/
structure FallbackState where
  isStreaming : Bool
  progress : Rat
  currentPhase : String
  phaseTitle : String
  streamingText : String
  factCheckStatus : String
  error : Option String
  confidence : Rat
  validationStatus : String
  sources : List FallbackSource
  reasoningSteps : List FallbackReasoningStep
  deriving DecidableEq, Repr

/-- The assistant message returned by the synchronous
`apiService.sendMessage` call, as read by the fallback replay
(`confidence_score` and `fact_check_status` are optional floats/strings). -/
structure ApiChatMessage where
  role : String
  content : String
  confidence_score : Option Rat := none
  fact_check_status : Option String := none
  deriving DecidableEq, Repr

/-- The word-by-word replay loop
(`for (let i = 0; i < words.length; i++) { currentText += ...; setStreamingState(...) }`):
each iteration publishes the accumulated text and
`progress = 75 + ((i + 1) / words.length) * 20`. -/
def fallbackReplayLoopGo (len : Nat) (s : FallbackState) (i : Nat)
    (cur : List Char) : List (List Char) → FallbackState
  | [] => s
  | w :: ws =>
    let cur2 := cur ++ (if 0 < i then [' '] else []) ++ w
    let s2 : FallbackState :=
      { s with streamingText := String.mk cur2
               progress := 75 + (((i : Rat) + 1) / (len : Rat)) * 20 }
    fallbackReplayLoopGo len s2 (i + 1) cur2 ws

/-- The fallback delivery path after the synchronous response arrived and an
assistant message was found: the pre-loop update (`progress 75`,
`'Delivering response...'`), the word-by-word replay loop over
`fullText.split(' ')`, the completion update (`progress 100`,
`'Complete!'`, confidence / validation copied with JS `||` defaults), and
finally `isStreaming := false`. -/
def fallbackDeliver (s : FallbackState) (msg : ApiChatMessage) : FallbackState :=
  let s0 : FallbackState :=
    { s with progress := 75
             phaseTitle := "Delivering response..."
             currentPhase := "response" }
  let words := jsSplitSpace msg.content.data
  let s1 := fallbackReplayLoopGo words.length s0 0 [] words
  let s2 : FallbackState :=
    { s1 with progress := 100
              phaseTitle := "Complete!"
              confidence := jsOrRat msg.confidence_score (9 / 10)
              validationStatus := jsOrStr msg.fact_check_status "approved" }
  { s2 with isStreaming := false }

/-! ### Chat interface: optimistic message rollback (`sendMessage` catch) -/

/-- A visible chat message of the chat interface (`Message` in the
component); `timestamp` is epoch milliseconds. -/
structure ChatUiMessage where
  id : String
  role : String
  content : String
  timestamp : Int
  deriving DecidableEq, Repr

/-- The predicate of the rollback filter: a message is dropped when its role
is `'user'` and its timestamp is within 1000 ms of the failure time
(`Math.abs(new Date(msg.timestamp).getTime() - currentTime) < 1000`). -/
def isOptimisticMatch (m : ChatUiMessage) (now : Int) : Bool :=
  m.role == "user" && decide ((m.timestamp - now).natAbs < 1000)

/-- The `setMessages(prev => prev.filter(...))` rollback in `sendMessage`'s
catch block: remove user messages timestamped close to the failure time. -/
def rollbackOptimistic (msgs : List ChatUiMessage) (now : Int) :
    List ChatUiMessage :=
  msgs.filter fun m => !(isOptimisticMatch m now)

/-- The whole visible-list effect of `sendMessage`'s catch block: roll back
the optimistic user message, then append the assistant-styled error
message. -/
def sendMessageFailure (msgs : List ChatUiMessage) (now : Int)
    (errText : String) : List ChatUiMessage :=
  rollbackOptimistic msgs now ++
    [⟨toString now, "assistant", "**Error**: " ++ errText, now⟩]

/-! ## Supporting lemmas -/

lemma upsertAt_length (l : List (Option ReasoningStep)) (i : Nat)
    (v : ReasoningStep) : (upsertAt l i v).length = max l.length (i + 1) := by
  simp [upsertAt]
  omega

lemma upsertAt_of_lt (l : List (Option ReasoningStep)) (i : Nat)
    (v : ReasoningStep) (h : i < l.length) :
    upsertAt l i v = l.set i (some v) := by
  unfold upsertAt
  have h0 : i + 1 - l.length = 0 := by omega
  rw [h0]
  simp

lemma upsertAt_get_self (l : List (Option ReasoningStep)) (i : Nat)
    (v : ReasoningStep) : (upsertAt l i v)[i]? = some (some v) := by
  have hlen : i < (l ++ List.replicate (i + 1 - l.length) (none : Option ReasoningStep)).length := by
    simp
    omega
  unfold upsertAt
  exact List.getElem?_set_eq_of_lt _ hlen

lemma upsertAt_get_other (l : List (Option ReasoningStep)) (i j : Nat)
    (v : ReasoningStep) (h : j ≠ i) :
    ((upsertAt l i v)[j]?).getD none = (l[j]?).getD none := by
  unfold upsertAt
  rw [List.getElem?_set_ne (by omega)]
  rcases lt_or_ge j l.length with hj | hj
  · rw [List.getElem?_append, if_pos hj]
  · rw [List.getElem?_append, if_neg (by omega)]
    have hln : l[j]? = none := by
      rw [List.getElem?_eq_none]
      omega
    rw [hln]
    rcases lt_or_ge (j - l.length) (i + 1 - l.length) with hr | hr
    · rw [List.getElem?_replicate]
      simp [hr]
    · have hrn : (List.replicate (i + 1 - l.length) (none : Option ReasoningStep))[j - l.length]? = none := by
        rw [List.getElem?_eq_none]
        simp
        omega
      simp [hrn]

lemma upsertAt_idem (l : List (Option ReasoningStep)) (i : Nat)
    (v : ReasoningStep) : upsertAt (upsertAt l i v) i v = upsertAt l i v := by
  have hi : i < (upsertAt l i v).length := by
    rw [upsertAt_length]
    omega
  rw [upsertAt_of_lt _ _ _ hi]
  apply List.ext_getElem?
  intro j
  by_cases hj : j = i
  · subst hj
    rw [upsertAt_get_self]
    simp [List.getElem?_set_self, hi]
  · rw [List.getElem?_set_ne (by omega)]

lemma foldEvent_reasoning_step (s : StreamingState) (d : StreamingMessage)
    (t : Int) (st : String) (i : Nat) (hty : d.type = "reasoning_step")
    (hstep : d.step = some st) (hne : st ≠ "") (hidx : d.index = some i) :
    foldEvent s d t =
      { s with reasoningSteps := upsertAt s.reasoningSteps i ⟨st, i, false⟩ } := by
  simp [foldEvent, hty, hstep, hidx, hne]

/-! ## Claims -/

/-- C5: folding a `response_chunk` event replaces `streamingText` wholesale
with the event's chunk (empty string when the chunk is absent), independent
of the previous text — last write wins, no append. -/
theorem C5_response_chunk_replaces (s : StreamingState) (d : StreamingMessage)
    (t : Int) (h : d.type = "response_chunk") :
    (foldEvent s d t).streamingText = d.chunk.getD "" := by
  simp only [foldEvent, h]
  norm_num
  cases hc : d.chunk with
  | none => simp [jsOrStr]
  | some c =>
    by_cases hce : c = "" <;> simp [jsOrStr, hce]

/-- Witness for C5 at a concrete prior text and chunk. -/
theorem C5_response_chunk_replaces_witness :
    (foldEvent { initialState with streamingText := "partial answer so far" }
        ({ type := "response_chunk", chunk := some "full cumulative text" })
        0).streamingText = "full cumulative text" :=
  C5_response_chunk_replaces _ _ 0 rfl

/-- C6: folding a `reasoning_step` event with step text `s` and index `i`
upserts `{step := s, index := i, completed := false}` at position `i`,
leaves every other position unchanged, and is idempotent. -/
theorem C6_reasoning_step_sparse_upsert (s : StreamingState)
    (d : StreamingMessage) (t : Int) (st : String) (i : Nat)
    (hty : d.type = "reasoning_step") (hstep : d.step = some st)
    (hne : st ≠ "") (hidx : d.index = some i) :
    ((foldEvent s d t).reasoningSteps[i]?).getD none = some ⟨st, i, false⟩ ∧
    (∀ j : Nat, j ≠ i →
      ((foldEvent s d t).reasoningSteps[j]?).getD none =
        (s.reasoningSteps[j]?).getD none) ∧
    foldEvent (foldEvent s d t) d t = foldEvent s d t := by
  have hf := foldEvent_reasoning_step s d t st i hty hstep hne hidx
  refine ⟨?_, ?_, ?_⟩
  · rw [hf]
    show ((upsertAt s.reasoningSteps i ⟨st, i, false⟩)[i]?).getD none = some ⟨st, i, false⟩
    rw [upsertAt_get_self]
    rfl
  · intro j hj
    rw [hf]
    exact upsertAt_get_other s.reasoningSteps i j ⟨st, i, false⟩ hj
  · rw [hf]
    rw [foldEvent_reasoning_step _ d t st i hty hstep hne hidx]
    simp [upsertAt_idem]

/-- Witness for C6: index 2 arrives first, on an empty step list; position 2
holds the step, and refolding the same event changes nothing. -/
theorem C6_reasoning_step_sparse_upsert_witness :
    ((foldEvent initialState ({ type := "reasoning_step", step := some "Analyzing soil data", index := some 2 }) 0).reasoningSteps[2]?).getD none = some ⟨"Analyzing soil data", 2, false⟩ ∧
    foldEvent (foldEvent initialState ({ type := "reasoning_step", step := some "Analyzing soil data", index := some 2 }) 0) ({ type := "reasoning_step", step := some "Analyzing soil data", index := some 2 }) 0 =
      foldEvent initialState ({ type := "reasoning_step", step := some "Analyzing soil data", index := some 2 }) 0 :=
  ⟨(C6_reasoning_step_sparse_upsert initialState _ 0 "Analyzing soil data" 2 rfl rfl (by decide) rfl).1,
   (C6_reasoning_step_sparse_upsert initialState _ 0 "Analyzing soil data" 2 rfl rfl (by decide) rfl).2.2⟩

/-- C10: the fold is total: an event whose `type` is none of the eleven
recognized tags leaves the state unchanged (the `switch` has no `default`
case, so control falls through and the copied state equals the input). -/
theorem C10_unknown_event_noop (s : StreamingState) (d : StreamingMessage)
    (t : Int)
    (h : d.type ∉ ["status", "phase", "phase_complete", "sources_found",
      "reasoning_step", "web_search_query", "response_start",
      "response_chunk", "fact_check_result", "completion", "error"]) :
    foldEvent s d t = s := by
  simp only [List.mem_cons, List.mem_singleton, not_or] at h
  obtain ⟨h1, h2, h3, h4, h5, h6, h7, h8, h9, h10, h11⟩ := h
  simp [foldEvent, h1, h2, h3, h4, h5, h6, h7, h8, h9, h10, h11]

/-- Witness for C10 at a concrete unrecognized tag. -/
theorem C10_unknown_event_noop_witness :
    foldEvent initialState ({ type := "heartbeat" }) 0 = initialState :=
  C10_unknown_event_noop initialState _ 0 (by decide)

lemma foldEvent_cases (s : StreamingState) (d : StreamingMessage) (t : Int) :
    (d.type = "status" ∧ foldEvent s d t = { s with progress := jsOrInt d.progress 0 }) ∨
    (foldEvent s d t = { s with currentPhase := jsOrStr d.phase "", phaseTitle := jsOrStr d.title "" }) ∨
    (foldEvent s d t = { s with progress := jsOrInt d.progress s.progress }) ∨
    (foldEvent s d t = { s with sources := d.sources.getD [], progress := jsOrInt d.progress s.progress }) ∨
    (∃ st i, foldEvent s d t = { s with reasoningSteps := upsertAt s.reasoningSteps i ⟨st, i, false⟩ }) ∨
    (∃ q, foldEvent s d t = { s with webSearchQueries := s.webSearchQueries ++ [⟨q, t, none⟩] }) ∨
    (foldEvent s d t = { s with streamingText := "" }) ∨
    (foldEvent s d t = { s with streamingText := jsOrStr d.chunk "", progress := jsOrInt d.progress s.progress }) ∨
    (foldEvent s d t = { s with factCheckStatus := jsOrStr d.status "" }) ∨
    (d.type = "completion" ∧ foldEvent s d t = { s with isStreaming := false, progress := 100, reasoningSteps := s.reasoningSteps.map (Option.map fun r => { r with completed := true }) }) ∨
    (foldEvent s d t = { s with error := some (jsOrStr d.message "An error occurred"), isStreaming := false }) ∨
    foldEvent s d t = s := by
  by_cases h1 : d.type = "status"
  · exact Or.inl ⟨h1, by simp [foldEvent, h1]⟩
  by_cases h2 : d.type = "phase"
  · right; left
    simp [foldEvent, h2]
  by_cases h3 : d.type = "phase_complete"
  · right; right; left
    simp [foldEvent, h3]
  by_cases h4 : d.type = "sources_found"
  · right; right; right; left
    simp [foldEvent, h4]
  by_cases h5 : d.type = "reasoning_step"
  · rcases hst : d.step with _ | st
    · iterate 11 right
      simp [foldEvent, h5, hst]
    rcases hidx : d.index with _ | i
    · iterate 11 right
      simp [foldEvent, h5, hst, hidx]
    by_cases hemp : st = ""
    · iterate 11 right
      simp [foldEvent, h5, hst, hidx, hemp]
    · right; right; right; right; left
      exact ⟨st, i, by simp [foldEvent, h5, hst, hidx, hemp]⟩
  by_cases h6 : d.type = "web_search_query"
  · rcases hq : d.query with _ | q
    · iterate 11 right
      simp [foldEvent, h6, hq]
    by_cases hqe : q = ""
    · iterate 11 right
      simp [foldEvent, h6, hq, hqe]
    · right; right; right; right; right; left
      exact ⟨q, by simp [foldEvent, h6, hq, hqe]⟩
  by_cases h7 : d.type = "response_start"
  · right; right; right; right; right; right; left
    simp [foldEvent, h7]
  by_cases h8 : d.type = "response_chunk"
  · right; right; right; right; right; right; right; left
    simp [foldEvent, h8]
  by_cases h9 : d.type = "fact_check_result"
  · right; right; right; right; right; right; right; right; left
    simp [foldEvent, h9]
  by_cases h10 : d.type = "completion"
  · right; right; right; right; right; right; right; right; right; left
    exact ⟨h10, by simp [foldEvent, h10]⟩
  by_cases h11 : d.type = "error"
  · right; right; right; right; right; right; right; right; right; right; left
    simp [foldEvent, h11]
  · iterate 11 right
    simp [foldEvent, h1, h2, h3, h4, h5, h6, h7, h8, h9, h10, h11]

lemma foldEvent_isStreaming_stays_false (s : StreamingState)
    (d : StreamingMessage) (t : Int) (h : s.isStreaming = false) :
    (foldEvent s d t).isStreaming = false := by
  rcases foldEvent_cases s d t with ⟨_, heq⟩ | heq | heq | heq | ⟨st, i, heq⟩ |
    ⟨q, heq⟩ | heq | heq | heq | ⟨_, heq⟩ | heq | heq <;>
    rw [heq] <;> first | exact h | rfl

lemma foldEvent_error_stays_some (s : StreamingState) (d : StreamingMessage)
    (t : Int) (h : s.error.isSome = true) :
    (foldEvent s d t).error.isSome = true := by
  rcases foldEvent_cases s d t with ⟨_, heq⟩ | heq | heq | heq | ⟨st, i, heq⟩ |
    ⟨q, heq⟩ | heq | heq | heq | ⟨_, heq⟩ | heq | heq <;>
    rw [heq] <;> first | exact h | rfl

lemma foldEvents_terminal_invariant (s : StreamingState)
    (es : List (StreamingMessage × Int)) (h1 : s.error.isSome = true)
    (h2 : s.isStreaming = false) :
    (foldEvents s es).error.isSome = true ∧
      (foldEvents s es).isStreaming = false := by
  induction es generalizing s with
  | nil => exact ⟨h1, h2⟩
  | cons e es ih =>
    exact ih _ (foldEvent_error_stays_some _ e.1 e.2 h1)
      (foldEvent_isStreaming_stays_false _ e.1 e.2 h2)

lemma foldEvent_error_case (s : StreamingState) (d : StreamingMessage)
    (t : Int) (h : d.type = "error") :
    foldEvent s d t =
      { s with error := some (jsOrStr d.message "An error occurred")
               isStreaming := false } := by
  simp [foldEvent, h]

/-- C1 counterexample: after an `error` event the fold is NOT frozen — a
subsequent `status` event still mutates the state (its `progress` moves
from 0 to 50), contradicting the claim that every later fold is the
identity. -/
theorem C1_frozen_after_error_counterexample :
    foldEvent (foldEvent initialState ({ type := "error" }) 0)
        ({ type := "status", progress := some 50 }) 0 ≠
      foldEvent initialState ({ type := "error" }) 0 := by
  decide

/-- C1 amended: folding an `error` event sets `error` to a non-null message
and `isStreaming` to `false`, and every later fold preserves both (no event
clears `error` or restarts the stream) — but later folds may still change
the other fields, so the state is not frozen. -/
theorem C1_error_flags_persist (s : StreamingState) (d : StreamingMessage)
    (t : Int) (es : List (StreamingMessage × Int)) (h : d.type = "error") :
    (foldEvents (foldEvent s d t) es).error.isSome = true ∧
      (foldEvents (foldEvent s d t) es).isStreaming = false := by
  apply foldEvents_terminal_invariant
  · rw [foldEvent_error_case s d t h]
    rfl
  · rw [foldEvent_error_case s d t h]


/-- Witness for C1 (amended) at a concrete error event and tail sequence. -/
theorem C1_error_flags_persist_witness :
    (foldEvents (foldEvent initialState ({ type := "error" }) 0)
        [({ type := "status", progress := some 50 }, 1), ({ type := "completion" }, 2)]).error.isSome = true ∧
      (foldEvents (foldEvent initialState ({ type := "error" }) 0)
        [({ type := "status", progress := some 50 }, 1), ({ type := "completion" }, 2)]).isStreaming = false :=
  C1_error_flags_persist initialState _ 0 _ rfl

lemma foldEvent_completion_case (s : StreamingState) (d : StreamingMessage)
    (t : Int) (h : d.type = "completion") :
    foldEvent s d t =
      { s with isStreaming := false
               progress := 100
               reasoningSteps :=
                 s.reasoningSteps.map
                   (Option.map fun r => { r with completed := true }) } := by
  simp [foldEvent, h]

lemma foldEvents_append (s : StreamingState)
    (es : List (StreamingMessage × Int)) (p : StreamingMessage × Int) :
    foldEvents s (es ++ [p]) = foldEvent (foldEvents s es) p.1 p.2 := by
  induction es generalizing s with
  | nil => rfl
  | cons e es ih => exact ih (foldEvent s e.1 e.2)

/-- C2: any event sequence ending in a `completion` event leaves
`isStreaming = false`, `progress = 100`, and every entry present in
`reasoningSteps` marked `completed = true`, no matter how many entries were
completed mid-stream. -/
theorem C2_completion_final_state (s : StreamingState)
    (es : List (StreamingMessage × Int)) (d : StreamingMessage) (t : Int)
    (h : d.type = "completion") :
    (foldEvents s (es ++ [(d, t)])).isStreaming = false ∧
    (foldEvents s (es ++ [(d, t)])).progress = 100 ∧
    ∀ o ∈ (foldEvents s (es ++ [(d, t)])).reasoningSteps, ∀ r : ReasoningStep,
      o = some r → r.completed = true := by
  rw [foldEvents_append, foldEvent_completion_case _ _ _ h]
  refine ⟨rfl, rfl, ?_⟩
  intro o ho r hr
  subst hr
  rcases List.mem_map.1 ho with ⟨o', _, ho'⟩
  cases o' with
  | none => simp at ho'
  | some r' =>
    have hx : ({ r' with completed := true } : ReasoningStep) = r := by
      simpa using ho'
    rw [← hx]

/-- Witness for C2 at a concrete sequence with a half-completed step list. -/
theorem C2_completion_final_state_witness :
    (foldEvents initialState
        ([({ type := "reasoning_step", step := some "check weather", index := some 0 }, 0)] ++
          [({ type := "completion" }, 1)])).isStreaming = false ∧
    (foldEvents initialState
        ([({ type := "reasoning_step", step := some "check weather", index := some 0 }, 0)] ++
          [({ type := "completion" }, 1)])).progress = 100 :=
  ⟨(C2_completion_final_state initialState _ _ 1 rfl).1,
   (C2_completion_final_state initialState _ _ 1 rfl).2.1⟩

/-- C4 counterexample: `progress` is neither clamped to `[0,100]` nor
monotone — a `status` event carrying 150 drives it above 100, and a later
`status` event carrying 10 strictly decreases it. -/
theorem C4_progress_monotone_counterexample :
    100 < (foldEvent initialState ({ type := "status", progress := some 150 }) 0).progress ∧
    (foldEvent (foldEvent initialState ({ type := "status", progress := some 150 }) 0)
        ({ type := "status", progress := some 10 }) 0).progress <
      (foldEvent initialState ({ type := "status", progress := some 150 }) 0).progress := by
  decide

/-- C4 amended: the fold enforces no clamping and no monotonicity; `status`
events overwrite `progress` unconditionally (with 0 when the carried value
is absent or zero), so progress can decrease. For every non-`status` event
the fold does not decrease progress, provided any nonzero progress value
the event carries (100 in the case of `completion`) is at least the current
value — i.e. monotonicity holds exactly when the server's own values are
non-decreasing. -/
theorem C4_progress_monotone_of_nonstatus (s : StreamingState)
    (d : StreamingMessage) (t : Int) (h1 : d.type ≠ "status")
    (h2 : d.type = "completion" → s.progress ≤ 100)
    (h3 : ∀ v : Int, d.progress = some v → v ≠ 0 → s.progress ≤ v) :
    s.progress ≤ (foldEvent s d t).progress := by
  have hj : s.progress ≤ jsOrInt d.progress s.progress := by
    cases hp : d.progress with
    | none => simp [jsOrInt]
    | some v =>
      by_cases hv : v = 0
      · simp [jsOrInt, hv]
      · simpa [jsOrInt, hv] using h3 v hp hv
  rcases foldEvent_cases s d t with ⟨hty, heq⟩ | heq | heq | heq |
    ⟨st, i, heq⟩ | ⟨q, heq⟩ | heq | heq | heq | ⟨hty, heq⟩ | heq | heq
  · exact absurd hty h1
  · rw [heq]
  · rw [heq]
    exact hj
  · rw [heq]
    exact hj
  · rw [heq]
  · rw [heq]
  · rw [heq]
  · rw [heq]
    exact hj
  · rw [heq]
  · rw [heq]
    exact h2 hty
  · rw [heq]
  · rw [heq]

/-- Witness for C4 (amended) at a concrete `phase_complete` event. -/
theorem C4_progress_monotone_of_nonstatus_witness :
    initialState.progress ≤
      (foldEvent initialState
        ({ type := "phase_complete", progress := some 40 }) 0).progress :=
  C4_progress_monotone_of_nonstatus initialState _ 0 (by decide) (by decide)
    (fun v hv _ => by
      simp only [Option.some.injEq] at hv
      rw [← hv]
      decide)

/-- C7: `stopStreaming` forces `isStreaming = false` and closes the
transport, leaves every other view-model field untouched (the partial
answer stays visible), and is a no-op on the view model when no stream is
active. -/
theorem C7_stop_streaming_frame (sess : StreamingSession) :
    (stopStreaming sess).streamingState.isStreaming = false ∧
    (stopStreaming sess).transportOpen = false ∧
    (stopStreaming sess).streamingState.progress = sess.streamingState.progress ∧
    (stopStreaming sess).streamingState.currentPhase = sess.streamingState.currentPhase ∧
    (stopStreaming sess).streamingState.phaseTitle = sess.streamingState.phaseTitle ∧
    (stopStreaming sess).streamingState.streamingText = sess.streamingState.streamingText ∧
    (stopStreaming sess).streamingState.sources = sess.streamingState.sources ∧
    (stopStreaming sess).streamingState.reasoningSteps = sess.streamingState.reasoningSteps ∧
    (stopStreaming sess).streamingState.webSearchQueries = sess.streamingState.webSearchQueries ∧
    (stopStreaming sess).streamingState.factCheckStatus = sess.streamingState.factCheckStatus ∧
    (stopStreaming sess).streamingState.error = sess.streamingState.error ∧
    (sess.streamingState.isStreaming = false →
      (stopStreaming sess).streamingState = sess.streamingState) := by
  obtain ⟨⟨b, p, cp, pt, so, rs, wq, tx, fc, er⟩, tr⟩ := sess
  cases tr <;>
    refine ⟨rfl, rfl, rfl, rfl, rfl, rfl, rfl, rfl, rfl, rfl, rfl, ?_⟩ <;>
    · intro hb
      simp only at hb
      rw [stopStreaming]
      simp [hb]

/-- Witness for C7: stopping when no stream is active (but a stale
transport is still referenced) closes the transport and leaves the view
model exactly as it was. -/
theorem C7_stop_streaming_frame_witness :
    (stopStreaming { streamingState := initialState, transportOpen := true }).streamingState = initialState ∧
    (stopStreaming { streamingState := initialState, transportOpen := true }).transportOpen = false :=
  ⟨(C7_stop_streaming_frame { streamingState := initialState, transportOpen := true }).2.2.2.2.2.2.2.2.2.2.2 rfl,
   (C7_stop_streaming_frame { streamingState := initialState, transportOpen := true }).2.1⟩

/-- C3 (code evaluation at the failing input): with a stream already live
(`isStreaming = true`, transport open, partial text on screen), a second
`startStreaming` call is NOT rejected — it wipes the view model back to the
live initial state and installs a fresh transport over the old reference. -/
theorem C3_second_start_not_rejected :
    ({ streamingState := { initialState with isStreaming := true, progress := 50, streamingText := "partial answer" }, transportOpen := true } : StreamingSession).streamingState.isStreaming = true ∧
    (startStreamingEntry { streamingState := { initialState with isStreaming := true, progress := 50, streamingText := "partial answer" }, transportOpen := true }).streamingState.streamingText = "" ∧
    (startStreamingEntry { streamingState := { initialState with isStreaming := true, progress := 50, streamingText := "partial answer" }, transportOpen := true }).streamingState.progress = 0 ∧
    (startStreamingEntry { streamingState := { initialState with isStreaming := true, progress := 50, streamingText := "partial answer" }, transportOpen := true }).transportOpen = true := by
  decide

lemma jsSplitSpace_ne_nil (l : List Char) : jsSplitSpace l ≠ [] := by
  cases l with
  | nil => simp [jsSplitSpace]
  | cons c cs =>
    unfold jsSplitSpace
    split_ifs
    · simp
    · cases h : jsSplitSpace cs <;> simp

lemma sepJoin_of_ne_nil (ws : List (List Char)) (h : ws ≠ []) :
    sepJoin ws = ' ' :: joinSpace ws := by
  cases ws with
  | nil => exact absurd rfl h
  | cons w ws => rfl

lemma joinSpace_jsSplitSpace (l : List Char) : joinSpace (jsSplitSpace l) = l := by
  induction l with
  | nil => rfl
  | cons c cs ih =>
    unfold jsSplitSpace
    by_cases hc : c = ' '
    · rw [if_pos hc]
      show joinSpace ([] :: jsSplitSpace cs) = c :: cs
      rw [joinSpace, sepJoin_of_ne_nil _ (jsSplitSpace_ne_nil cs), ih, hc]
      simp
    · rw [if_neg hc]
      rcases hs : jsSplitSpace cs with _ | ⟨w, ws⟩
      · exact absurd hs (jsSplitSpace_ne_nil cs)
      · show joinSpace ((c :: w) :: ws) = c :: cs
        have hjoin : joinSpace (w :: ws) = cs := by
          rw [← hs]
          exact ih
        rw [joinSpace] at hjoin
        rw [joinSpace, ← hjoin]
        simp

lemma replayAcc_pos (ws : List (List Char)) :
    ∀ (cur : List Char) (i : Nat), 0 < i → replayAcc cur i ws = cur ++ sepJoin ws := by
  induction ws with
  | nil =>
    intro cur i _
    simp [replayAcc, sepJoin]
  | cons w ws ih =>
    intro cur i h
    rw [replayAcc, if_pos h, ih _ (i + 1) (by omega), sepJoin]
    simp

lemma replayAcc_zero (ws : List (List Char)) (cur : List Char) :
    replayAcc cur 0 ws = cur ++ joinSpace ws := by
  cases ws with
  | nil => simp [replayAcc, joinSpace]
  | cons w ws =>
    rw [replayAcc, if_neg (by omega), replayAcc_pos ws _ 1 (by omega), joinSpace]
    simp

lemma fallbackReplayLoopGo_streamingText (len : Nat) (ws : List (List Char)) :
    ∀ (w : List Char) (s : FallbackState) (i : Nat) (cur : List Char),
      (fallbackReplayLoopGo len s i cur (w :: ws)).streamingText =
        String.mk (replayAcc cur i (w :: ws)) := by
  induction ws with
  | nil =>
    intro w s i cur
    simp [fallbackReplayLoopGo, replayAcc]
  | cons w2 ws ih =>
    intro w s i cur
    rw [replayAcc]
    rw [← ih w2 _ (i + 1) (cur ++ (if 0 < i then [' '] else []) ++ w)]
    rfl

/-- C8: the fallback transport's word-by-word replay (split on single
spaces, re-concatenate incrementally) ends with `streamingText` exactly
equal to the returned assistant text — the split/rejoin is a round trip —
followed by the completion update (`progress = 100`) and
`isStreaming = false`, without any real `response_chunk` events. -/
theorem C8_fallback_replay_roundtrip (s : FallbackState) (msg : ApiChatMessage) :
    (fallbackDeliver s msg).streamingText = msg.content ∧
    (fallbackDeliver s msg).progress = 100 ∧
    (fallbackDeliver s msg).isStreaming = false := by
  refine ⟨?_, rfl, rfl⟩
  show (fallbackReplayLoopGo (jsSplitSpace msg.content.data).length _ 0 []
      (jsSplitSpace msg.content.data)).streamingText = msg.content
  rcases hw : jsSplitSpace msg.content.data with _ | ⟨w, ws⟩
  · exact absurd hw (jsSplitSpace_ne_nil msg.content.data)
  · rw [fallbackReplayLoopGo_streamingText, ← hw, replayAcc_zero,
      joinSpace_jsSplitSpace]
    show String.mk msg.content.data = msg.content
    cases hm : msg.content
    rfl

/-- C9: in `sendMessage`'s failure path, the optimistic user message —
identified by role `'user'` and a timestamp within 1000 ms of the failure
time — is removed from the visible list, while any message with a
different role or an older (≥ 1000 ms away) timestamp survives the
rollback. -/
theorem C9_optimistic_rollback (msgs : List ChatUiMessage) (now : Int)
    (e : String) (m : ChatUiMessage) (hrole : m.role = "user")
    (hts : (m.timestamp - now).natAbs < 1000) :
    m ∉ sendMessageFailure msgs now e ∧
    ∀ m' ∈ msgs, (m'.role ≠ "user" ∨ 1000 ≤ (m'.timestamp - now).natAbs) →
      m' ∈ sendMessageFailure msgs now e := by
  constructor
  · intro hmem
    rcases List.mem_append.1 hmem with hm1 | hm2
    · have hkeep := (List.mem_filter.1 hm1).2
      simp [isOptimisticMatch, hrole, hts] at hkeep
    · simp only [List.mem_singleton] at hm2
      subst hm2
      simp at hrole
  · intro m' hm' hcond
    apply List.mem_append.2
    left
    apply List.mem_filter.2
    refine ⟨hm', ?_⟩
    simp only [isOptimisticMatch, Bool.not_eq_eq_eq_not, Bool.not_true,
      Bool.and_eq_false_iff]
    rcases hcond with hr | ht
    · left
      simp [hr]
    · right
      simp
      omega

/-- Witness for C9: the optimistic user message (500 ms before the failure)
is rolled back; an earlier-turn user message (10500 ms old) survives. -/
theorem C9_optimistic_rollback_witness :
    (⟨"3", "user", "Ping", 100000⟩ : ChatUiMessage) ∉
      sendMessageFailure [⟨"1", "user", "What crops?", 90000⟩, ⟨"2", "assistant", "Rice.", 91000⟩, ⟨"3", "user", "Ping", 100000⟩] 100500 "Network error" ∧
    (⟨"1", "user", "What crops?", 90000⟩ : ChatUiMessage) ∈
      sendMessageFailure [⟨"1", "user", "What crops?", 90000⟩, ⟨"2", "assistant", "Rice.", 91000⟩, ⟨"3", "user", "Ping", 100000⟩] 100500 "Network error" :=
  ⟨(C9_optimistic_rollback _ 100500 "Network error" ⟨"3", "user", "Ping", 100000⟩ rfl (by decide)).1,
   (C9_optimistic_rollback _ 100500 "Network error" ⟨"3", "user", "Ping", 100000⟩ rfl (by decide)).2
     ⟨"1", "user", "What crops?", 90000⟩ (by simp) (Or.inr (by decide))⟩

end AgriBot
